import Mathlib

/-!
# Verification of the crackgpt backend (src/backend/app.py)

Shallow embedding of the Flask backend's behaviour:

* `get_mime_type` — MIME sniffing for uploaded documents (app.py lines 31-39);
* the Prompt Assembler inside `generate_questions` (lines 46-114): fixed
  question counts, multimodal `contents_parts` construction and the trailing
  instruction text;
* the Resilient API Invoker (lines 150-194): the retry/backoff loop around
  the Gemini call, with response classification, schema validation of the
  embedded JSON payload and exponential backoff;
* the Session Store (`interview_sessions` dict) with `get_session`
  (lines 282-287), `export_session` (lines 289-305) and the append performed
  by `transcribe_audio` (lines 198-277).

External effects (the HTTP transport, `json.loads`, the speech recogniser,
the clock) are parameters/oracles; everything the Python code computes from
their answers is translated directly.
-/

namespace CrackGpt

/-- JSON values, as produced by Python's `json.loads` / `response.json()`.
Objects keep their key/value pairs in order (Python dicts are ordered and
JSON objects from `json.loads` have unique keys). -/
inductive Json where
  | null : Json
  | bool (b : Bool) : Json
  | num (n : Int) : Json
  | str (s : String) : Json
  | arr (elems : List Json) : Json
  | obj (fields : List (String × Json)) : Json

/-! ## MIME sniffing (app.py lines 31-39, `get_mime_type`) -/

/-- `get_mime_type(filename)`: `.pdf` (case-insensitive) maps to
`application/pdf`; `.doc`/`.docx` and everything else map to
`application/octet-stream`. Python's `str.lower()` is `String.toLower`
and `str.endswith` (tuple form = any) is `String.endsWith`. -/
def get_mime_type (filename : String) : String :=
  if filename.toLower.endsWith ".pdf" then "application/pdf"
  else if filename.toLower.endsWith ".doc" || filename.toLower.endsWith ".docx" then
    "application/octet-stream"
  else "application/octet-stream"

/-! ## Prompt Assembler (app.py lines 46-114) -/

/-- Fixed question-count configuration (app.py lines 47-49). -/
def total_questions : Nat := 20

def jd_questions_count : Nat := 15

def cv_questions_count : Nat := 5

/-- The fields `generate_questions` extracts from the request JSON
(app.py lines 54-65), with `data.get` defaults already applied:
`job_title` defaults to `"Software Developer"`, `job_description` to `""`,
`difficulty` is already lower-cased, file data is `None` (here `none`) when
absent, file names default to `""`. -/
structure GenerationRequest where
  job_title : String
  job_description : String
  difficulty : String
  job_file_data : Option String
  job_file_name : String
  cv_file_data : Option String
  cv_file_name : String

/-- Python truthiness of `data.get('..._file_data')`: `None` and the empty
string are falsy, any other string is truthy. -/
def truthy : Option String → Bool
  | none => false
  | some s => !(s == "")

/-- One element of the `contents_parts` list: either a `{"text": ...}` part
or an `{"inlineData": {"mimeType": ..., "data": ...}}` part. -/
inductive Part where
  | text (s : String) : Part
  | inlineData (mimeType : String) (data : String) : Part

/-- The initial `user_query` assignment (app.py lines 100-103): the base
instruction sentence, mentioning `total_questions`. -/
def user_query_base (req : GenerationRequest) : String :=
  "Generate a total of " ++ toString total_questions ++
  " interview questions for the role of '" ++ req.job_title ++ "' with a '" ++
  req.difficulty ++ "' difficulty level. " ++
  "The questions must be a balanced mix of Technical, Behavioral, and Situational types. "

/-- The full `user_query` instruction text (app.py lines 100-111): the
conditional `+=` appends on top of the base sentence — the job-derived
sentence with `jd_questions_count` when either a job file or job text is
present, and the CV sentence with `cv_questions_count` when a CV file is
present. -/
def user_query (req : GenerationRequest) : String :=
  let base := user_query_base req
  let withJd :=
    if truthy req.job_file_data || !(req.job_description == "") then
      base ++ "Specifically, " ++ toString jd_questions_count ++
      " questions should focus on the general requirements, skills, and common scenarios relevant to the job profile itself. "
    else base
  if truthy req.cv_file_data then
    withJd ++ "The remaining " ++ toString cv_questions_count ++
    " questions MUST be highly personalized, based solely on specific projects, skills, or experiences found in your CV, making them relevant to the role."
  else withJd

/-- `contents_parts` construction (app.py lines 73-114), mirroring the
Python appends: start empty; append the job part (file wins over text);
append the CV file part when present; finally append the `user_query`
text part. -/
def contents_parts (req : GenerationRequest) : List Part :=
  let parts : List Part := []
  let parts :=
    if truthy req.job_file_data then
      parts ++ [Part.inlineData (get_mime_type req.job_file_name) (req.job_file_data.getD "")]
    else if !(req.job_description == "") then
      parts ++ [Part.text ("The Job Description is: " ++ req.job_description)]
    else parts
  let parts :=
    if truthy req.cv_file_data then
      parts ++ [Part.inlineData (get_mime_type req.cv_file_name) (req.cv_file_data.getD "")]
    else parts
  parts ++ [Part.text (user_query req)]

/-! ## Resilient API Invoker (app.py lines 150-194)

The network is an oracle `Nat → CallOutcome` giving the outcome of the
`requests.post` call on each (zero-indexed) attempt; `json.loads` on the
embedded text is a parameter `parse : String → Option Json` (`none` models
`json.JSONDecodeError`). Everything downstream of the oracle answer is
translated from the Python. -/

/-- Outcome of one `requests.post(API_URL, ...)` call: either a
`requests.exceptions.RequestException` that is not an HTTPError (network
error), or an HTTP response with status code, body text, and the body parsed
as JSON by `response.json()` (`none` when the body is not valid JSON, in
which case `response.json()` raises a `ValueError` subclass). -/
inductive CallOutcome where
  | networkError (msg : String) : CallOutcome
  | response (statusCode : Nat) (text : String) (body : Option Json) : CallOutcome

/-- Python `dict.get(k, d)` on a JSON value. `none` models the
`AttributeError` raised when the value is not a dict. -/
def dictGetD (j : Json) (k : String) (d : Json) : Option Json :=
  match j with
  | Json.obj kvs =>
      match kvs.find? (fun kv => kv.1 == k) with
      | some kv => some kv.2
      | none => some d
  | _ => none

/-- Python `x[0]` in the extraction chain. Returns the first element of a
JSON array; `none` models the exception raised otherwise (`IndexError` on an
empty list, `KeyError` on a dict, etc. — every non-`some` case makes the
surrounding extraction raise an uncaught exception). -/
def index0 : Json → Option Json
  | Json.arr (x :: _) => some x
  | _ => none

/-- The `json_text` extraction (app.py lines 159-160):
`result.get('candidates', [{}])[0].get('content', {}).get('parts', [{}])[0].get('text', '[]')`.
`none` models an uncaught exception anywhere in the chain (including a
non-string `text` value, which would make the following `json.loads` raise
`TypeError`). -/
def extractJsonText (result : Json) : Option String := do
  let cands ← dictGetD result "candidates" (Json.arr [Json.obj []])
  let candidate ← index0 cands
  let content ← dictGetD candidate "content" (Json.obj [])
  let parts ← dictGetD content "parts" (Json.arr [Json.obj []])
  let part0 ← index0 parts
  let t ← dictGetD part0 "text" (Json.str "[]")
  match t with
  | Json.str s => some s
  | _ => none

/-- Substring containment used to model Python's `'k' in s` for strings. -/
def strMem (needle hay : String) : Bool :=
  (List.range (hay.length + 1)).any (fun i => needle.isPrefixOf (hay.drop i))

/-- Python `'k' in q` for a JSON value `q`: key membership for dicts,
substring for strings, element equality for lists; `none` models the
`TypeError` raised for numbers, booleans and `None`. -/
def pyIn (k : String) : Json → Option Bool
  | Json.obj kvs => some (kvs.any (fun kv => kv.1 == k))
  | Json.str s => some (strMem k s)
  | Json.arr xs =>
      some (xs.any (fun x => match x with | Json.str s => s == k | _ => false))
  | _ => none

/-- `all('text' in q and 'type' in q for q in questions_list)` (app.py
line 166), with Python's short-circuiting: `all` stops at the first falsy
element, and `and` skips its right operand when the left is falsy. `none`
models a `TypeError` escaping (it is not caught by the retry loop). -/
def checkAll : List Json → Option Bool
  | [] => some true
  | q :: qs =>
      match pyIn "text" q with
      | none => none
      | some false => some false
      | some true =>
          match pyIn "type" q with
          | none => none
          | some false => some false
          | some true => checkAll qs

/-- What one iteration of the retry loop observes after classifying its
outcome. `schemaErr jt?` is the `(json.JSONDecodeError, ValueError)` branch;
`jt?` is `some t` when `json_text` was (re)bound to `t` during this attempt
and `none` when the exception fired before the assignment
(`response.json()` failing). `crash` is an exception no `except` clause
catches. -/
inductive StepRes where
  | success (questions : List Json) : StepRes
  | httpErr (status : Nat) (text : String) : StepRes
  | schemaErr (jsonText : Option String) : StepRes
  | netErr (msg : String) : StepRes
  | crash : StepRes

/-- One loop body (app.py lines 152-170): issue the call,
`raise_for_status()` (HTTPError exactly when `400 ≤ status < 600`),
parse the body, extract `json_text`, `json.loads` it, and run the
structural validation of line 166. -/
def runAttempt (parse : String → Option Json) : CallOutcome → StepRes
  | CallOutcome.networkError msg => StepRes.netErr msg
  | CallOutcome.response status text body =>
      if 400 ≤ status ∧ status < 600 then StepRes.httpErr status text
      else
        match body with
        | none => StepRes.schemaErr none
        | some result =>
            match extractJsonText result with
            | none => StepRes.crash
            | some jt =>
                match parse jt with
                | none => StepRes.schemaErr (some jt)
                | some ql =>
                    match ql with
                    | Json.arr xs =>
                        match checkAll xs with
                        | none => StepRes.crash
                        | some true => StepRes.success xs
                        | some false => StepRes.schemaErr (some jt)
                    | _ => StepRes.schemaErr (some jt)

/-- The value `generate_questions` hands back to Flask from the retry loop:
the constructor records which `return` fired, together with the HTTP status
and body it produces. `crash` stands for an uncaught exception
(`TypeError`, `NameError`, ...). -/
inductive GenResult where
  | success (questions : List Json) : GenResult
  | httpFailure (status : Nat) (message : String) : GenResult
  | parseFailure (message : String) : GenResult
  | networkFailure (message : String) : GenResult
  | exhausted : GenResult
  | crash : GenResult

def max_retries : Nat := 3

/-- The retry loop `for attempt in range(max_retries)` (app.py
lines 151-194). `fuel` is the number of iterations left, `attempt` the
Python loop variable, `lastJT` the current binding of `json_text` (a Python
local that survives across iterations; `none` = never assigned, so the
final f-string of line 185 would raise `NameError`). Returns the result,
the number of `requests.post` calls made, and the list of `time.sleep`
durations in order. -/
def geminiLoop (parse : String → Option Json) (oracle : Nat → CallOutcome)
    (lastJT : Option String) (attempt : Nat) :
    Nat → GenResult × Nat × List Nat
  | 0 => (GenResult.exhausted, 0, [])
  | fuel + 1 =>
      match runAttempt parse (oracle attempt) with
      | StepRes.success qs => (GenResult.success qs, 1, [])
      | StepRes.httpErr status text =>
          if attempt < max_retries - 1 ∧ (status = 429 ∨ status = 500 ∨ status = 503) then
            let rest := geminiLoop parse oracle lastJT (attempt + 1) fuel
            (rest.1, rest.2.1 + 1, 2 ^ attempt :: rest.2.2)
          else
            (GenResult.httpFailure status
              ("Gemini API request failed: HTTP Error " ++ toString status ++ ": " ++ text),
             1, [])
      | StepRes.schemaErr jt? =>
          let jt := match jt? with | some t => some t | none => lastJT
          if attempt < max_retries - 1 then
            let rest := geminiLoop parse oracle jt (attempt + 1) fuel
            (rest.1, rest.2.1 + 1, 2 ^ attempt :: rest.2.2)
          else
            match jt with
            | some t =>
                (GenResult.parseFailure
                  ("Failed to parse structured response from AI after " ++
                   toString max_retries ++ " attempts. Raw output: " ++ t),
                 1, [])
            | none => (GenResult.crash, 1, [])
      | StepRes.netErr msg =>
          if attempt < max_retries - 1 then
            let rest := geminiLoop parse oracle lastJT (attempt + 1) fuel
            (rest.1, rest.2.1 + 1, 2 ^ attempt :: rest.2.2)
          else
            (GenResult.networkFailure
              ("Network error communicating with Gemini API: " ++ msg), 1, [])
      | StepRes.crash => (GenResult.crash, 1, [])

/-- The whole invoker: run the loop from attempt 0 with `json_text` unbound
and `max_retries` iterations of fuel. -/
def invoke (parse : String → Option Json) (oracle : Nat → CallOutcome) :
    GenResult × Nat × List Nat :=
  geminiLoop parse oracle none 0 max_retries

/-- The HTTP status code Flask sends for each `GenResult` (app.py lines 170,
178, 185, 192, 194). -/
def flaskStatus : GenResult → Nat
  | GenResult.success _ => 200
  | GenResult.httpFailure s _ => s
  | GenResult.parseFailure _ => 500
  | GenResult.networkFailure _ => 500
  | GenResult.exhausted => 500
  | GenResult.crash => 500

/-! ## Session Store (app.py line 28, `interview_sessions = {}`) -/

/-- One record appended by `transcribe_audio` (app.py lines 264-269). -/
structure TranscriptionRecord where
  question_number : String
  audio_file : String
  transcription : String
  timestamp : String

/-- The `interview_sessions` dict: an association list from session id to
the ordered record list (a Python dict has unique keys; lookup is
`List.lookup`). -/
def Store := List (String × List TranscriptionRecord)

/-- `session_id in interview_sessions` / `interview_sessions[session_id]`. -/
def Store.find (st : Store) (sid : String) : Option (List TranscriptionRecord) :=
  List.lookup sid st

/-- The append of app.py lines 259-269: create the entry with `[]` on first
use, then `.append(record)`. -/
def Store.append1 (st : Store) (sid : String) (r : TranscriptionRecord) : Store :=
  match st with
  | [] => [(sid, [r])]
  | (k, v) :: rest =>
      if k == sid then (k, v ++ [r]) :: rest
      else (k, v) :: Store.append1 rest sid r

/-! ## `get_session` (app.py lines 282-287) and `export_session` (289-305) -/

/-- `get_session`: the HTTP status and the JSON list returned.
A present id returns its records, an absent one returns `[]`; both paths
are `jsonify(...)` with the default 200 status. -/
def get_session (st : Store) (sid : String) : Nat × List TranscriptionRecord :=
  match st.find sid with
  | some records => (200, records)
  | none => (200, [])

/-- Result of `export_session`. -/
inductive ExportResult where
  | notFound : ExportResult
  | exported (file : String) (data : List TranscriptionRecord) : ExportResult

/-- `export_session`: 404 `Session not found` when the id is absent (and no
file written); otherwise write the export file and return its name plus the
data. `now` is `datetime.now().strftime('%Y%m%d_%H%M%S')`. The second
component lists the files written (path, contents). -/
def export_session (st : Store) (sid : String) (now : String) :
    (Nat × ExportResult) × List (String × List TranscriptionRecord) :=
  match st.find sid with
  | none => ((404, ExportResult.notFound), [])
  | some records =>
      let export_filename := "interview_raw_export_" ++ sid ++ "_" ++ now ++ ".json"
      ((200, ExportResult.exported export_filename records),
       [("recordings/" ++ export_filename, records)])

/-! ## `transcribe_audio` (app.py lines 198-277) -/

/-- The sentinel text returned when Google speech recognition raises
`sr.UnknownValueError` (app.py line 252). -/
def sentinel_text : String := "[Could not understand audio - please speak clearly]"

/-- Outcome of `recognizer.recognize_google(audio_data)` (app.py line 250):
recognised text, `sr.UnknownValueError` (speech not understood), or
`sr.RequestError` (service unreachable/errored). -/
inductive RecognitionOutcome where
  | recognized (text : String) : RecognitionOutcome
  | unknownValue : RecognitionOutcome
  | requestError (msg : String) : RecognitionOutcome

/-- Inputs of one `transcribe_audio` request, with the outcomes of the
external steps (pydub conversion, wav read, speech recognition) supplied as
oracle fields. `question_number` and `session_id` have their `form.get`
defaults (`'0'`, `'default'`) applied; `timestamp` is
`datetime.now().strftime('%Y%m%d_%H%M%S')`. -/
structure TranscribeInput where
  hasAudio : Bool
  question_number : String
  session_id : String
  timestamp : String
  convertOk : Bool
  convertErr : String
  readOk : Bool
  readErr : String
  recog : RecognitionOutcome

/-- Result of `transcribe_audio`: HTTP status plus either the success JSON
`{'transcription': ..., 'audio_file': ...}` or the error message. -/
inductive TranscribeResult where
  | ok (transcription : String) (audio_file : String) : TranscribeResult
  | err (status : Nat) (message : String) : TranscribeResult

/-- `transcribe_audio` (app.py lines 198-277): guard for the audio part,
convert to wav, transcribe (mapping `sr.UnknownValueError` to the sentinel
text, `sr.RequestError` to a 500), then append the record to the session
store and return the transcription. Returns the result and the store after
the call. -/
def transcribe_audio (st : Store) (inp : TranscribeInput) : TranscribeResult × Store :=
  if !inp.hasAudio then
    (TranscribeResult.err 400 "No audio file provided", st)
  else if !inp.convertOk then
    (TranscribeResult.err 500
      ("Audio conversion error. Check if ffprobe/ffmpeg is installed on your system. Details: " ++
       inp.convertErr), st)
  else if !inp.readOk then
    (TranscribeResult.err 500
      ("Error reading audio file for transcription: " ++ inp.readErr), st)
  else
    match inp.recog with
    | RecognitionOutcome.requestError msg =>
        (TranscribeResult.err 500 ("Speech recognition service error: " ++ msg), st)
    | outcome =>
        let text :=
          match outcome with
          | RecognitionOutcome.recognized t => t
          | _ => sentinel_text
        let wav_filename := "q" ++ inp.question_number ++ "_" ++ inp.timestamp ++ ".wav"
        let wav_filepath := "recordings/" ++ wav_filename
        let record : TranscriptionRecord :=
          ⟨inp.question_number, wav_filepath, text, inp.timestamp⟩
        (TranscribeResult.ok text wav_filename,
         st.append1 inp.session_id record)

/-! ## The `generate_questions` endpoint as a whole (app.py lines 42-194)

The handler reads the request, builds `contents_parts` and the payload, and
runs the retry loop. It never mentions `interview_sessions`; threading the
store through makes that a provable frame property. -/

/-- The full endpoint: build the prompt parts (whose only use is inside the
outbound payload, abstracted by the oracle) and run the invoker. The store
is passed through untouched, exactly as in the source, which never reads or
writes `interview_sessions` inside `generate_questions`. -/
def generate_questions (st : Store) (req : GenerationRequest)
    (parse : String → Option Json) (oracle : Nat → CallOutcome) :
    (List Part × (GenResult × Nat × List Nat)) × Store :=
  ((contents_parts req, invoke parse oracle), st)

/-! ## Theorems -/

/-- C10: The MIME-type mapping is total and deterministic (it is a Lean
function), returns `application/pdf` exactly when the lowercased filename
ends with `.pdf`, and `application/octet-stream` in every other case,
including `.doc`, `.docx` and the empty filename. -/
theorem mime_type_total (filename : String) :
    get_mime_type filename =
      if filename.toLower.endsWith ".pdf" then "application/pdf"
      else "application/octet-stream" := by
  unfold get_mime_type
  by_cases h : filename.toLower.endsWith ".pdf" <;> simp [h]

/-- Looking up the appended session in the store after `Store.append1`
yields the previous records (or `[]` when absent) with the new record at
the end. -/
theorem append1_find (st : Store) (sid : String) (r : TranscriptionRecord) :
    (st.append1 sid r).find sid = some (((st.find sid).getD []) ++ [r]) := by
  induction st with
  | nil => simp [Store.append1, Store.find, List.lookup]
  | cons kv rest ih =>
      obtain ⟨k, v⟩ := kv
      by_cases h : k == sid
      · have hk : sid == k := by
          simp only [beq_iff_eq] at h ⊢
          exact h.symm
        simp [Store.append1, Store.find, List.lookup, h, hk]
      · have hk : (sid == k) = false := by
          simp only [beq_iff_eq, beq_eq_false_iff_ne] at h ⊢
          exact fun hs => h hs.symm
        simpa [Store.append1, Store.find, List.lookup, h, hk] using ih

/-- `Store.append1` leaves the records of every other session unchanged. -/
theorem append1_find_ne (st : Store) (sid sid' : String) (r : TranscriptionRecord)
    (hne : sid' ≠ sid) : (st.append1 sid r).find sid' = st.find sid' := by
  have hb : (sid' == sid) = false := beq_eq_false_iff_ne.mpr hne
  induction st with
  | nil => simp [Store.append1, Store.find, List.lookup, hb]
  | cons kv rest ih =>
      obtain ⟨k, v⟩ := kv
      by_cases h : k == sid
      · have hk : (sid' == k) = false := by
          simp only [beq_iff_eq] at h
          simp [beq_eq_false_iff_ne, h, hne]
        simp [Store.append1, Store.find, List.lookup, h, hk]
      · by_cases h' : sid' == k
        · simp [Store.append1, Store.find, List.lookup, h, h']
        · simpa [Store.append1, Store.find, List.lookup, h, h'] using ih

/-- C7: for a session id absent from the store, `get_session` returns the
empty list with a 200 (success, never an error) and `export_session`
returns a 404 not-found without writing any file; for a present id,
`get_session` returns the stored ordered record list with a 200. -/
theorem session_read_export_asymmetry (st : Store) (sid : String) (now : String) :
    (st.find sid = none →
        get_session st sid = (200, []) ∧
        export_session st sid now = ((404, ExportResult.notFound), [])) ∧
    (∀ records, st.find sid = some records →
        get_session st sid = (200, records)) := by
  constructor
  · intro h
    simp [get_session, export_session, h]
  · intro records h
    simp [get_session, h]

/-- Witness for C7 at a concrete store: the id `"s2"` is absent (empty
read, 404 export with no file written) while `"s1"` is present and read
back in full. -/
theorem session_read_export_asymmetry_witness :
    (get_session [("s1", [⟨"1", "a", "t", "ts"⟩])] "s2" = (200, []) ∧
     export_session [("s1", [⟨"1", "a", "t", "ts"⟩])] "s2" "20251012_000000" =
       ((404, ExportResult.notFound), [])) ∧
    get_session [("s1", [⟨"1", "a", "t", "ts"⟩])] "s1" = (200, [⟨"1", "a", "t", "ts"⟩]) := by
  refine ⟨(session_read_export_asymmetry [("s1", [⟨"1", "a", "t", "ts"⟩])] "s2"
    "20251012_000000").1 rfl,
    (session_read_export_asymmetry [("s1", [⟨"1", "a", "t", "ts"⟩])] "s1"
      "20251012_000000").2 [⟨"1", "a", "t", "ts"⟩] rfl⟩

/-- C8: when speech recognition raises the not-recognized condition
(`sr.UnknownValueError`) and the earlier stages succeeded,
`transcribe_audio` returns the fixed sentinel text as a successful result,
and the record carrying the sentinel text is still appended to the caller's
session: afterwards the session's records are the previous ones followed by
the sentinel record. -/
theorem unintelligible_audio_is_success (st : Store) (inp : TranscribeInput)
    (hAudio : inp.hasAudio = true) (hConv : inp.convertOk = true)
    (hRead : inp.readOk = true) (hRec : inp.recog = RecognitionOutcome.unknownValue) :
    transcribe_audio st inp =
      (TranscribeResult.ok sentinel_text
        ("q" ++ inp.question_number ++ "_" ++ inp.timestamp ++ ".wav"),
       st.append1 inp.session_id
        ⟨inp.question_number,
         "recordings/" ++ ("q" ++ inp.question_number ++ "_" ++ inp.timestamp ++ ".wav"),
         sentinel_text, inp.timestamp⟩) ∧
    ((transcribe_audio st inp).2).find inp.session_id =
      some (((st.find inp.session_id).getD []) ++
        [⟨inp.question_number,
          "recordings/" ++ ("q" ++ inp.question_number ++ "_" ++ inp.timestamp ++ ".wav"),
          sentinel_text, inp.timestamp⟩]) := by
  have h1 : transcribe_audio st inp =
      (TranscribeResult.ok sentinel_text
        ("q" ++ inp.question_number ++ "_" ++ inp.timestamp ++ ".wav"),
       st.append1 inp.session_id
        ⟨inp.question_number,
         "recordings/" ++ ("q" ++ inp.question_number ++ "_" ++ inp.timestamp ++ ".wav"),
         sentinel_text, inp.timestamp⟩) := by
    simp [transcribe_audio, hAudio, hConv, hRead, hRec]
  refine ⟨h1, ?_⟩
  rw [h1]
  exact append1_find st inp.session_id _

/-- Witness for C8: a concrete fresh session; the result is the sentinel
and the store gains exactly the sentinel record. -/
theorem unintelligible_audio_is_success_witness :
    transcribe_audio []
      ⟨true, "3", "sess", "20251012_101010", true, "", true, "",
        RecognitionOutcome.unknownValue⟩ =
      (TranscribeResult.ok sentinel_text "q3_20251012_101010.wav",
       [("sess", [⟨"3", "recordings/q3_20251012_101010.wav", sentinel_text,
          "20251012_101010"⟩])]) := by
  have h := unintelligible_audio_is_success []
    ⟨true, "3", "sess", "20251012_101010", true, "", true, "",
      RecognitionOutcome.unknownValue⟩ rfl rfl rfl rfl
  exact h.1

/-- C9: the question-generation endpoint leaves the session store unchanged
for every input and every oracle behaviour (success, HTTP failure, schema
failure, transport failure): `generate_questions` threads the store through
untouched, exactly as in the source, which never mentions
`interview_sessions`. -/
theorem generate_questions_preserves_store (st : Store) (req : GenerationRequest)
    (parse : String → Option Json) (oracle : Nat → CallOutcome) :
    (generate_questions st req parse oracle).2 = st := rfl

/-- C1: with an upstream that answers 503 on the first two attempts and
then a 2xx response whose embedded payload parses to a schema-valid list
(every element has `type` and `text`), the invoker returns the parsed
question list as a success, makes exactly 3 calls, and sleeps 1 then 2 time
units (`2^attempt`, attempt zero-indexed) after the two failures. -/
theorem invoke_503_503_then_valid (parse : String → Option Json)
    (oracle : Nat → CallOutcome) (t0 t1 t2 : String) (b0 b1 : Option Json)
    (body2 : Json) (jt : String) (qs : List Json) (s2 : Nat)
    (h0 : oracle 0 = CallOutcome.response 503 t0 b0)
    (h1 : oracle 1 = CallOutcome.response 503 t1 b1)
    (h2 : oracle 2 = CallOutcome.response s2 t2 (some body2))
    (hs2 : 200 ≤ s2 ∧ s2 < 300)
    (hext : extractJsonText body2 = some jt)
    (hparse : parse jt = some (Json.arr qs))
    (hvalid : checkAll qs = some true) :
    invoke parse oracle = (GenResult.success qs, 3, [1, 2]) := by
  have hno : ¬ (400 ≤ s2 ∧ s2 < 600) := by omega
  simp [invoke, geminiLoop, runAttempt, h0, h1, h2, hno, hext, hparse, hvalid,
    max_retries]

/-- A concrete Gemini response body whose embedded text is `"PAYLOAD"`. -/
def c1_body : Json :=
  Json.obj [("candidates", Json.arr [Json.obj [("content", Json.obj
    [("parts", Json.arr [Json.obj [("text", Json.str "PAYLOAD")]])])]])]

/-- A concrete schema-valid question list. -/
def c1_questions : List Json :=
  [Json.obj [("type", Json.str "Technical"), ("text", Json.str "Q1")],
   Json.obj [("type", Json.str "Behavioral"), ("text", Json.str "Q2")]]

/-- A concrete `json.loads` that parses `"PAYLOAD"` to `c1_questions`. -/
def c1_parse (s : String) : Option Json :=
  if s == "PAYLOAD" then some (Json.arr c1_questions) else none

/-- A concrete upstream: 503 twice, then 200 with the valid body. -/
def c1_oracle : Nat → CallOutcome
  | 0 => CallOutcome.response 503 "The model is overloaded." none
  | 1 => CallOutcome.response 503 "The model is overloaded." none
  | _ => CallOutcome.response 200 "OK" (some c1_body)

/-- Witness for C1 at the concrete upstream `c1_oracle`. -/
theorem invoke_503_503_then_valid_witness :
    invoke c1_parse c1_oracle = (GenResult.success c1_questions, 3, [1, 2]) :=
  invoke_503_503_then_valid c1_parse c1_oracle
    "The model is overloaded." "The model is overloaded." "OK" none none
    c1_body "PAYLOAD" c1_questions 200 rfl rfl rfl (by omega) rfl rfl rfl

/-- C2: with an upstream that answers 503 on all three attempts, the
invoker returns a failure carrying the final response's 503 status and its
body verbatim in the error message, makes exactly 3 calls (the conclusion
holds for every oracle agreeing on attempts 0-2, so no fourth call can
influence it), and sleeps only after the first two failures ([1, 2]; no
sleep after the last). -/
theorem invoke_503_all_attempts (parse : String → Option Json)
    (oracle : Nat → CallOutcome) (t0 t1 t2 : String) (b0 b1 b2 : Option Json)
    (h0 : oracle 0 = CallOutcome.response 503 t0 b0)
    (h1 : oracle 1 = CallOutcome.response 503 t1 b1)
    (h2 : oracle 2 = CallOutcome.response 503 t2 b2) :
    invoke parse oracle =
      (GenResult.httpFailure 503
        ("Gemini API request failed: HTTP Error " ++ toString 503 ++ ": " ++ t2),
       3, [1, 2]) := by
  simp [invoke, geminiLoop, runAttempt, h0, h1, h2, max_retries]

/-- A concrete upstream answering 503 forever. -/
def c2_oracle : Nat → CallOutcome
  | _ => CallOutcome.response 503 "Service Unavailable" none

/-- Witness for C2 at the concrete upstream `c2_oracle`. -/
theorem invoke_503_all_attempts_witness :
    invoke c1_parse c2_oracle =
      (GenResult.httpFailure 503
        ("Gemini API request failed: HTTP Error " ++ toString 503 ++
         ": " ++ "Service Unavailable"),
       3, [1, 2]) :=
  invoke_503_all_attempts c1_parse c2_oracle
    "Service Unavailable" "Service Unavailable" "Service Unavailable"
    none none none rfl rfl rfl

/-- A concrete upstream answering 302 with a schema-valid body: 302 is
non-2xx and not in {429, 500, 503}, yet `raise_for_status()` only raises
for 4xx/5xx, so the code proceeds to parse the body. -/
def c3_oracle : Nat → CallOutcome
  | _ => CallOutcome.response 302 "Found" (some c1_body)

/-- C3 counterexample: 302 is a non-2xx status outside {429, 500, 503},
but the invoker does not fail terminally with the 302 status as the claim
states — `raise_for_status()` raises only for 4xx/5xx, so the 302 response
body is parsed and the call even succeeds. -/
theorem http_non2xx_not_terminal_counterexample :
    (¬ (200 ≤ 302 ∧ 302 < 300)) ∧ 302 ≠ 429 ∧ 302 ≠ 500 ∧ 302 ≠ 503 ∧
    invoke c1_parse c3_oracle = (GenResult.success c1_questions, 1, []) ∧
    (∀ m, (invoke c1_parse c3_oracle).1 ≠ GenResult.httpFailure 302 m) := by
  refine ⟨by omega, by omega, by omega, by omega, rfl, ?_⟩
  intro m h
  rw [show (invoke c1_parse c3_oracle).1 = GenResult.success c1_questions from rfl] at h
  exact GenResult.noConfusion h

/-- C3 amended: if the first call returns a 4xx or 5xx HTTP status that is
not in {429, 500, 503} (for example 400), the invoker fails terminally on
the first attempt — one call, no retry, no backoff sleep — and the failure
carries that status code with the response body verbatim in the message. -/
theorem invoke_client_error_terminal (parse : String → Option Json)
    (oracle : Nat → CallOutcome) (s : Nat) (t : String) (b : Option Json)
    (h0 : oracle 0 = CallOutcome.response s t b)
    (h4 : 400 ≤ s) (h6 : s < 600) (hn1 : s ≠ 429) (hn2 : s ≠ 500) (hn3 : s ≠ 503) :
    invoke parse oracle =
      (GenResult.httpFailure s
        ("Gemini API request failed: HTTP Error " ++ toString s ++ ": " ++ t),
       1, []) := by
  simp [invoke, geminiLoop, runAttempt, h0, max_retries, h4, h6, hn1, hn2, hn3]

/-- A concrete upstream answering 400. -/
def c3_oracle400 : Nat → CallOutcome
  | _ => CallOutcome.response 400 "Bad Request" none

/-- Witness for the amended C3 at a concrete 400 upstream. -/
theorem invoke_client_error_terminal_witness :
    invoke c1_parse c3_oracle400 =
      (GenResult.httpFailure 400
        ("Gemini API request failed: HTTP Error " ++ toString 400 ++
         ": " ++ "Bad Request"),
       1, []) :=
  invoke_client_error_terminal c1_parse c3_oracle400 400 "Bad Request" none
    rfl (by omega) (by omega) (by omega) (by omega) (by omega)

/-- A 2xx response whose parsed embedded payload is not a list, or is a
list with an element missing `type` or `text`, is classified by the loop
body as a schema error (the `ValueError` of app.py line 167), with
`json_text` bound to the raw payload. -/
theorem runAttempt_bad_schema (parse : String → Option Json) (s : Nat)
    (t : String) (b : Json) (jt : String) (v : Json)
    (hs : ¬ (400 ≤ s ∧ s < 600))
    (hx : extractJsonText b = some jt) (hp : parse jt = some v)
    (hbad : ∀ xs, v = Json.arr xs → checkAll xs = some false) :
    runAttempt parse (CallOutcome.response s t (some b)) =
      StepRes.schemaErr (some jt) := by
  cases v with
  | arr xs =>
      have hc := hbad xs rfl
      simp [runAttempt, hs, hx, hp, hc]
  | null => simp [runAttempt, hs, hx, hp]
  | bool b' => simp [runAttempt, hs, hx, hp]
  | num n => simp [runAttempt, hs, hx, hp]
  | str s' => simp [runAttempt, hs, hx, hp]
  | obj kvs => simp [runAttempt, hs, hx, hp]

/-- C4: when every one of the three attempts yields a 2xx response whose
embedded payload parses but fails the schema check (not a list, or an
element missing `type` or `text`), each failure is retried like a transient
one (sleeps 1, 2), and after the third the invoker returns the
structural-parse failure — the `parseFailure` constructor, distinct from
`httpFailure` — whose message ends with the last raw payload text. -/
theorem invoke_schema_failure_exhausts (parse : String → Option Json)
    (oracle : Nat → CallOutcome) (s0 s1 s2 : Nat) (t0 t1 t2 : String)
    (b0 b1 b2 : Json) (jt0 jt1 jt2 : String) (v0 v1 v2 : Json)
    (h0 : oracle 0 = CallOutcome.response s0 t0 (some b0))
    (h1 : oracle 1 = CallOutcome.response s1 t1 (some b1))
    (h2 : oracle 2 = CallOutcome.response s2 t2 (some b2))
    (hs0 : 200 ≤ s0 ∧ s0 < 300) (hs1 : 200 ≤ s1 ∧ s1 < 300)
    (hs2 : 200 ≤ s2 ∧ s2 < 300)
    (hx0 : extractJsonText b0 = some jt0) (hp0 : parse jt0 = some v0)
    (hbad0 : ∀ xs, v0 = Json.arr xs → checkAll xs = some false)
    (hx1 : extractJsonText b1 = some jt1) (hp1 : parse jt1 = some v1)
    (hbad1 : ∀ xs, v1 = Json.arr xs → checkAll xs = some false)
    (hx2 : extractJsonText b2 = some jt2) (hp2 : parse jt2 = some v2)
    (hbad2 : ∀ xs, v2 = Json.arr xs → checkAll xs = some false) :
    invoke parse oracle =
      (GenResult.parseFailure
        ("Failed to parse structured response from AI after " ++
         toString max_retries ++ " attempts. Raw output: " ++ jt2),
       3, [1, 2]) ∧
    ∀ status m, GenResult.parseFailure
        ("Failed to parse structured response from AI after " ++
         toString max_retries ++ " attempts. Raw output: " ++ jt2) ≠
      GenResult.httpFailure status m := by
  have r0 := runAttempt_bad_schema parse s0 t0 b0 jt0 v0 (by omega) hx0 hp0 hbad0
  have r1 := runAttempt_bad_schema parse s1 t1 b1 jt1 v1 (by omega) hx1 hp1 hbad1
  have r2 := runAttempt_bad_schema parse s2 t2 b2 jt2 v2 (by omega) hx2 hp2 hbad2
  constructor
  · simp [invoke, geminiLoop, h0, h1, h2, r0, r1, r2, max_retries]
  · intro status m h
    exact GenResult.noConfusion h

/-- A concrete `json.loads` whose result is an object, not a list. -/
def c4_parse (s : String) : Option Json :=
  if s == "PAYLOAD" then some (Json.obj [("message", Json.str "no questions")])
  else none

/-- A concrete upstream always answering 200 with the `"PAYLOAD"` body. -/
def c4_oracle : Nat → CallOutcome
  | _ => CallOutcome.response 200 "OK" (some c1_body)

/-- Witness for C4: three 200 responses whose payload parses to an object;
the invoker ends with the structural-parse failure naming the raw
payload. -/
theorem invoke_schema_failure_exhausts_witness :
    invoke c4_parse c4_oracle =
      (GenResult.parseFailure
        ("Failed to parse structured response from AI after " ++
         toString max_retries ++ " attempts. Raw output: " ++ "PAYLOAD"),
       3, [1, 2]) :=
  (invoke_schema_failure_exhausts c4_parse c4_oracle 200 200 200 "OK" "OK" "OK"
    c1_body c1_body c1_body "PAYLOAD" "PAYLOAD" "PAYLOAD"
    (Json.obj [("message", Json.str "no questions")])
    (Json.obj [("message", Json.str "no questions")])
    (Json.obj [("message", Json.str "no questions")])
    rfl rfl rfl (by omega) (by omega) (by omega)
    rfl rfl (fun xs h => Json.noConfusion h)
    rfl rfl (fun xs h => Json.noConfusion h)
    rfl rfl (fun xs h => Json.noConfusion h)).1

/-- C5: for every request, the question counts woven into the assembled
instruction text are the fixed constants 20 / 15 / 5 (`15 + 5 = 20` holds),
and — since this is proved for every `GenerationRequest` with the same
numerals — the counts never come from caller input: the text always opens
with the total-20 sentence, carries the 15-question sentence whenever a job
source is present, and the 5-question sentence whenever a CV file is
present. -/
theorem question_counts_fixed (req : GenerationRequest) :
    jd_questions_count + cv_questions_count = total_questions ∧
    total_questions = 20 ∧
    (∃ r, user_query req =
      "Generate a total of " ++ toString total_questions ++
        " interview questions for the role of '" ++ r) ∧
    ((truthy req.job_file_data || !(req.job_description == "")) = true →
      ∃ p q, user_query req =
        p ++ ("Specifically, " ++ toString jd_questions_count ++
          " questions should focus on the general requirements, skills, and common scenarios relevant to the job profile itself. ") ++ q) ∧
    (truthy req.cv_file_data = true →
      ∃ p, user_query req =
        p ++ ("The remaining " ++ toString cv_questions_count ++
          " questions MUST be highly personalized, based solely on specific projects, skills, or experiences found in your CV, making them relevant to the role.")) := by
  refine ⟨rfl, rfl, ?_, ?_, ?_⟩
  · cases hj : (truthy req.job_file_data || !(req.job_description == "")) <;>
      cases hc : truthy req.cv_file_data <;>
      exact ⟨_, by
        simp only [user_query, user_query_base, hj, hc, Bool.false_eq_true,
          if_true, if_false, String.append_assoc]
        rfl⟩
  · intro hj
    cases hc : truthy req.cv_file_data
    · exact ⟨user_query_base req, "", by
        simp only [user_query, hj, hc, Bool.false_eq_true, if_true, if_false,
          String.append_assoc, String.append_empty]⟩
    · exact ⟨user_query_base req, _, by
        simp only [user_query, hj, hc, if_true, String.append_assoc]
        rfl⟩
  · intro hc
    cases hj : (truthy req.job_file_data || !(req.job_description == ""))
    · exact ⟨user_query_base req, by
        simp only [user_query, hj, hc, Bool.false_eq_true, if_true, if_false,
          String.append_assoc]⟩
    · exact ⟨user_query_base req ++ "Specifically, " ++ toString jd_questions_count ++
        " questions should focus on the general requirements, skills, and common scenarios relevant to the job profile itself. ", by
        simp only [user_query, hj, hc, if_true, String.append_assoc]⟩

/-- Witness for C5 at a concrete request carrying both a job text and a CV
file: both conditional sentences are present with the fixed counts. -/
theorem question_counts_fixed_witness :
    (∃ p q, user_query ⟨"Data Engineer", "We build pipelines.", "medium",
        none, "", some "Y3ZiYXNlNjQ=", "cv.pdf"⟩ =
      p ++ ("Specifically, " ++ toString jd_questions_count ++
        " questions should focus on the general requirements, skills, and common scenarios relevant to the job profile itself. ") ++ q) ∧
    (∃ p, user_query ⟨"Data Engineer", "We build pipelines.", "medium",
        none, "", some "Y3ZiYXNlNjQ=", "cv.pdf"⟩ =
      p ++ ("The remaining " ++ toString cv_questions_count ++
        " questions MUST be highly personalized, based solely on specific projects, skills, or experiences found in your CV, making them relevant to the role.")) :=
  ⟨(question_counts_fixed ⟨"Data Engineer", "We build pipelines.", "medium",
      none, "", some "Y3ZiYXNlNjQ=", "cv.pdf"⟩).2.2.2.1 rfl,
   (question_counts_fixed ⟨"Data Engineer", "We build pipelines.", "medium",
      none, "", some "Y3ZiYXNlNjQ=", "cv.pdf"⟩).2.2.2.2 rfl⟩

/-- C6: the assembled parts are always a job segment (an inline-document
part when a job file is supplied, else a text part when job text is
supplied, else nothing), followed by a CV inline-document part exactly when
a CV file is supplied, followed by one trailing instruction text part,
which is always the last element. -/
theorem contents_parts_shape (req : GenerationRequest) :
    ∃ jobPart cvPart,
      contents_parts req = jobPart ++ cvPart ++ [Part.text (user_query req)] ∧
      jobPart = (if truthy req.job_file_data then
          [Part.inlineData (get_mime_type req.job_file_name) (req.job_file_data.getD "")]
        else if !(req.job_description == "") then
          [Part.text ("The Job Description is: " ++ req.job_description)]
        else []) ∧
      cvPart = (if truthy req.cv_file_data then
          [Part.inlineData (get_mime_type req.cv_file_name) (req.cv_file_data.getD "")]
        else []) ∧
      (contents_parts req).getLast? = some (Part.text (user_query req)) := by
  refine ⟨_, _, ?_, rfl, rfl, ?_⟩
  · cases hj : truthy req.job_file_data <;>
      cases hc : truthy req.cv_file_data <;>
      cases hd : req.job_description == "" <;>
      simp [contents_parts, hj, hc, hd]
  · simp only [contents_parts]
    exact List.getLast?_concat _

end CrackGpt
